import Mathlib

/-!
Shallow embedding of the infra-mapper program.

The embedding covers the data models (`models/server.py`, `models/container.py`,
`models/port_mapping.py`, `models/docker_stack.py`), the configuration
persistence layer (`core/config_manager.py`), the SSH connection manager
(`core/ssh_manager.py`), the Docker discovery service
(`core/docker_discovery.py`), the per-host scan orchestration
(`__main__.py`), and the Mermaid/HTML generators
(`generators/mermaid_generator.py`, `generators/html_generator.py`).
Theorems at the end settle the specification claims about these components.
-/

/-- Authentication methods accepted by the `ServerCredentials` pydantic model
in `models/server.py` (the field is declared `Literal` with exactly the two
values `key` and `password`). -/
inductive AuthMethod
| key
| password
deriving DecidableEq, Repr

/-- String form of an `AuthMethod`, as it is serialized to YAML. -/
def authMethodStr : AuthMethod → String
| AuthMethod.key => "key"
| AuthMethod.password => "password"

/-- The `ServerCredentials` model from `models/server.py`: hostname, username,
auth method, optional SSH key path and port.  Validated instances are built
through `mkServerCredentials` below. -/
structure ServerCredentials where
  hostname : String
  username : String
  auth_method : AuthMethod
  ssh_key_path : Option String
  port : Nat
deriving DecidableEq, Repr

/-- Pydantic-style validated construction of `ServerCredentials`, embedding the
validators of `models/server.py`: the `auth_method` field must be one of the
two literal values `key`/`password`, the port must lie in 1..65535
(`validate_port`), and auth method `key` requires an `ssh_key_path`
(`validate_auth_config`).  Any violation raises `ValueError` in the source,
modelled as `Except.error`. -/
def mkServerCredentials (hostname username auth_method : String)
    (ssh_key_path : Option String) (port : Nat) : Except String ServerCredentials :=
  if auth_method = "key" ∨ auth_method = "password" then
    if 1 ≤ port ∧ port ≤ 65535 then
      let am := if auth_method = "key" then AuthMethod.key else AuthMethod.password
      if am = AuthMethod.key ∧ ssh_key_path = none then
        Except.error ("ssh_key_path is required when auth_method is key")
      else
        Except.ok ⟨hostname, username, am, ssh_key_path, port⟩
    else
      Except.error ("Port must be between 1 and 65535")
  else
    Except.error ("auth_method must be key or password")

/-- One server entry as written to `servers.yaml` by
`ConfigManager._serialize_server`: the four always-present scalar fields plus
the optional `ssh_key_path` key.  The password is deliberately never part of
an entry (`config_manager.py`, comment at the end of `_serialize_server`). -/
structure SavedEntry where
  hostname : String
  username : String
  auth_method : String
  port : Nat
  ssh_key_path : Option String
deriving DecidableEq, Repr

/-- `ConfigManager._serialize_server`: serialize a single server to a YAML
entry.  `ssh_key_path` is included exactly when the auth method is `key` and a
(truthy) path is present; no secret is ever written. -/
def ConfigManager._serialize_server (s : ServerCredentials) : SavedEntry :=
  ⟨s.hostname, s.username, authMethodStr s.auth_method, s.port,
    if s.auth_method = AuthMethod.key ∧ s.ssh_key_path ≠ none then s.ssh_key_path else none⟩

/-- `ConfigManager.save_servers`: the file contents are the list of serialized
entries (file I/O itself is a thin collaborator and is not modelled). -/
def ConfigManager.save_servers (servers : List ServerCredentials) : List SavedEntry :=
  servers.map ConfigManager._serialize_server

/-- Reconstruction of one saved entry inside `ConfigManager.load_servers`:
the stored auth method `password` is remapped to `pass` (the source comment
says `backward compat`), the key path is forwarded only for `key` auth and
only when truthy, and the result is passed to the validating
`ServerCredentials` constructor. -/
def ConfigManager.loadOne (e : SavedEntry) : Except String ServerCredentials :=
  let auth0 := e.auth_method
  let auth := if auth0 = "password" then "pass" else auth0
  let key_path :=
    if auth = "key" then
      match e.ssh_key_path with
      | some p => if p = "" then none else some p
      | none => none
    else none
  mkServerCredentials e.hostname e.username auth key_path e.port

/-- The loop body of `ConfigManager.load_servers`: entries are reconstructed
in order and the first `ValueError` aborts the whole load. -/
def ConfigManager.loadAll : List SavedEntry → Except String (List ServerCredentials)
| [] => Except.ok []
| e :: es =>
  match ConfigManager.loadOne e with
  | Except.error m => Except.error m
  | Except.ok c =>
    match ConfigManager.loadAll es with
    | Except.error m => Except.error m
    | Except.ok cs => Except.ok (c :: cs)

/-- `ConfigManager.load_servers`: any `ValueError` raised while rebuilding the
credentials is caught and re-raised as
`ConfigurationError("Invalid configuration format: ...")`. -/
def ConfigManager.load_servers (entries : List SavedEntry) :
    Except String (List ServerCredentials) :=
  match ConfigManager.loadAll entries with
  | Except.error m => Except.error ("Invalid configuration format: " ++ m)
  | Except.ok cs => Except.ok cs

/-- Association-list lookup with string keys, modelling Python `dict.get` /
the `in` key test: dictionaries are insertion ordered and keys unique. -/
def assocLookup (k : String) : List (String × α) → Option α
| [] => none
| (q, v) :: rest => if q = k then some v else assocLookup k rest

/-- Whether character list `pat` is a prefix of `l`. -/
def charsStartWith : List Char → List Char → Bool
| [], _ => true
| _ :: _, [] => false
| a :: as, b :: bs => a = b && charsStartWith as bs

/-- Whether character list `pat` occurs contiguously inside `l`. -/
def charsContain (pat : List Char) : List Char → Bool
| [] => pat.isEmpty
| b :: bs => charsStartWith pat (b :: bs) || charsContain pat bs

/-- Python's substring test `pat in s`. -/
def strContainsSub (s pat : String) : Bool := charsContain pat.data s.data

/-- Python's `str.lower()` (ASCII case folding, which is all the source relies
on for the `permission denied` check). -/
def strToLower (s : String) : String := String.mk (s.data.map Char.toLower)

/-- Python's `str.strip()`: remove leading and trailing whitespace. -/
def strTrim (s : String) : String :=
  String.mk ((((s.data.dropWhile Char.isWhitespace).reverse).dropWhile Char.isWhitespace).reverse)

/-- Helper for `strSplitNl`: accumulates the current line (reversed). -/
def splitNlGo : List Char → List Char → List String
| acc, [] => [String.mk acc.reverse]
| acc, c :: cs => if c = '\n' then String.mk acc.reverse :: splitNlGo [] cs else splitNlGo (c :: acc) cs

/-- Python's `str.split` on the newline separator, as used for the
one-ID-per-line `docker ps` output. -/
def strSplitNl (s : String) : List String := splitNlGo [] s.data

/-- The `PortMapping` model from `models/port_mapping.py`. -/
structure PortMapping where
  container_port : Nat
  host_port : Nat
  protocol : String
  host_ip : String
deriving DecidableEq, Repr

/-- The `Container` model from `models/container.py`.  Labels are an
insertion-ordered key-value map. -/
structure Container where
  container_id : String
  name : String
  image : String
  status : String
  ports : List PortMapping
  networks : List String
  labels : List (String × String)
  created_at : Option String
deriving DecidableEq, Repr

/-- The reserved compose project label key. -/
def composeProjectLabel : String := "com.docker.compose.project"

/-- `Container.compose_project`: the Docker Compose project name label value,
when present. -/
def Container.compose_project (c : Container) : Option String :=
  assocLookup composeProjectLabel c.labels

/-- `Container.is_compose_managed`: whether the reserved compose project label
key is present in the label map. -/
def Container.is_compose_managed (c : Container) : Bool :=
  (Container.compose_project c).isSome

/-- The `DockerStack` model from `models/docker_stack.py`. -/
structure DockerStack where
  project_name : String
  containers : List Container
deriving DecidableEq, Repr

/-- The `ServerInfo` model from `models/server.py`: credentials plus the
discovered topology and the connection outcome for one host. -/
structure ServerInfo where
  credentials : ServerCredentials
  docker_stacks : List DockerStack
  standalone_containers : List Container
  connection_status : String
  error_message : Option String
deriving DecidableEq, Repr

/-- Result of one remote command: exit code plus captured output streams,
as returned by `SSHConnectionManager.execute_command`. -/
structure CmdResult where
  exitCode : Int
  stdout : String
  stderr : String
deriving DecidableEq, Repr

/-- One connected SSH session, abstracted as the results it would return for
the three commands the discovery service issues: the availability probe
`sudo docker --version`, the inventory listing of running container IDs, and
the per-ID `sudo docker inspect`. -/
structure DockerSession where
  versionResult : CmdResult
  psResult : CmdResult
  inspectResult : String → CmdResult

/-- The exception taxonomy of `utils/exceptions.py` that can escape a host
scan.  All four are direct subclasses of `InfraMapperError`; in particular
`DockerPermissionError` is NOT a subclass of `DockerNotFoundError`. -/
inductive AppError
| sshConnection (msg : String)
| dockerNotFound (msg : String)
| dockerPermission (msg : String)
| other (msg : String)
deriving DecidableEq, Repr

/-- `DockerDiscoveryService._verify_docker_available`: a non-zero exit of the
version probe raises `DockerPermissionError` when the lowercased stderr
contains the phrase `permission denied`, and `DockerNotFoundError`
otherwise. -/
def DockerDiscoveryService._verify_docker_available (hostname : String)
    (s : DockerSession) : Except AppError Unit :=
  let r := s.versionResult
  if r.exitCode ≠ 0 then
    if strContainsSub (strToLower r.stderr) ("permission denied") then
      Except.error (AppError.dockerPermission
        ("Docker permission denied on " ++ hostname ++ ". User needs sudo access to Docker."))
    else
      Except.error (AppError.dockerNotFound
        ("Docker not found on " ++ hostname ++ ". Please install Docker on the target server."))
  else Except.ok ()

/-- `DockerDiscoveryService._inspect_container` followed by the JSON parse of
`_parse_container_data`, as invoked per ID inside `_get_all_containers`.
A non-zero exit raises there and any parse problem raises inside; both are
caught by the per-item `try`/`except` of the caller, so the per-item result is
collapsed to an `Option`.  The JSON decoding itself (`json.loads` plus field
extraction) is an external-library boundary, abstracted as `parse`. -/
def DockerDiscoveryService._inspect_container (s : DockerSession)
    (parse : String → Option Container) (container_id : String) : Option Container :=
  let r := s.inspectResult container_id
  if r.exitCode ≠ 0 then none else parse r.stdout

/-- `DockerDiscoveryService._get_all_containers`: a non-zero exit of the
inventory command or blank output yields the empty list; otherwise each
non-blank ID line is inspected, and a failed inspection is skipped. -/
def DockerDiscoveryService._get_all_containers (s : DockerSession)
    (parse : String → Option Container) : List Container :=
  let r := s.psResult
  if r.exitCode ≠ 0 ∨ strTrim r.stdout = "" then []
  else
    let container_ids := strSplitNl (strTrim r.stdout)
    container_ids.foldl
      (fun acc cid =>
        if strTrim cid = "" then acc
        else
          match DockerDiscoveryService._inspect_container s parse (strTrim cid) with
          | some c => acc ++ [c]
          | none => acc)
      []

/-- `stacks_dict.setdefault(project, []).append(container)` on an
insertion-ordered dict modelled as an association list: append the container
to the existing bucket for `p`, or append a fresh bucket at the end. -/
def addToDict : List (String × List Container) → String → Container → List (String × List Container)
| [], p, c => [(p, [c])]
| (q, m) :: rest, p, c =>
  if q = p then (q, m ++ [c]) :: rest else (q, m) :: addToDict rest p c

/-- The classification loop of `DockerDiscoveryService.discover_containers`
(lines 43-54): walk the discovered containers in order, bucketing
compose-managed ones by project and appending the rest to the standalone
list. -/
def classifyGo : List (String × List Container) → List Container → List Container →
    List (String × List Container) × List Container
| d, st, [] => (d, st)
| d, st, c :: cs =>
  match Container.compose_project c with
  | some p => classifyGo (addToDict d p c) st cs
  | none => classifyGo d (st ++ [c]) cs

/-- The classification section of `discover_containers`: run the loop from
empty accumulators and convert the dict buckets to `DockerStack` values. -/
def classifyDiscovered (containers : List Container) : List DockerStack × List Container :=
  let r := classifyGo [] [] containers
  (r.1.map (fun pr => ⟨pr.1, pr.2⟩), r.2)

/-- `DockerDiscoveryService.discover_containers`: verify Docker availability
(raising terminally on failure), list all containers, and classify them. -/
def DockerDiscoveryService.discover_containers (hostname : String) (s : DockerSession)
    (parse : String → Option Container) : Except AppError (List DockerStack × List Container) :=
  match DockerDiscoveryService._verify_docker_available hostname s with
  | Except.error e => Except.error e
  | Except.ok _ =>
      Except.ok (classifyDiscovered (DockerDiscoveryService._get_all_containers s parse))

/-- The `connection_status` recorded by the `except` clauses of
`InfraMapper._discover_server`, in their source order: `SSHConnectionError`
maps to `ssh_failed`, `DockerNotFoundError` to `no_docker`, and every other
exception — including `DockerPermissionError`, which no clause names — to the
generic `failed`.  Note that in the real control flow every exception raised
by discovery inside the `with ssh.connect():` body reaches these clauses only
after `SSHConnectionManager.wrapBodyError` below has converted it into an
`SSHConnectionError`, so from a connected scan the `no_docker` and `failed`
branches are unreachable and the recorded status is `ssh_failed`. -/
def statusOfError : AppError → String
| AppError.sshConnection _ => "ssh_failed"
| AppError.dockerNotFound _ => "no_docker"
| AppError.dockerPermission _ => "failed"
| AppError.other _ => "failed"

/-- The message carried by an `AppError`, recorded as `error_message`. -/
def errMessage : AppError → String
| AppError.sshConnection m => m
| AppError.dockerNotFound m => m
| AppError.dockerPermission m => m
| AppError.other m => m

/-- The exception chain of `SSHConnectionManager.connect` (a
`@contextmanager`) as it applies to an exception raised inside the `with`
body: the `with` statement throws the exception into the generator at
`yield self`, which sits inside the `try` of `ssh_manager.py`, so the
`except SSHConnectionError: raise` clause passes an `SSHConnectionError`
through unchanged, while the final `except Exception as e` clause re-raises
everything else — in particular `DockerNotFoundError` and
`DockerPermissionError` escaping `discover_containers` — as
`SSHConnectionError("Failed to connect to <hostname>: <e>")`.  (The
`FileNotFoundError` and paramiko clauses cannot match an exception coming
from the with body in this model.) -/
def SSHConnectionManager.wrapBodyError (hostname : String) : AppError → AppError
| AppError.sshConnection m => AppError.sshConnection m
| e => AppError.sshConnection ("Failed to connect to " ++ hostname ++ ": " ++ errMessage e)

/-- How far the SSH phase of `InfraMapper._discover_server` got for one host:
password auth with no collected password, a connection failure, or an open
session. -/
inductive ConnectionAttempt
| noPassword
| sshFail (msg : String)
| connected (s : DockerSession)

/-- `InfraMapper._discover_server`: produce the `ServerInfo` for one host.
On an open session a successful discovery is recorded with status `success`.
A raised discovery error first passes through the `connect` context manager's
exception chain (`SSHConnectionManager.wrapBodyError`, which converts any
non-`SSHConnectionError` into one) and only then reaches the `except` clauses
(`statusOfError`), giving the recorded status and retained message, with the
topology left empty. -/
def InfraMapper._discover_server (creds : ServerCredentials) (conn : ConnectionAttempt)
    (parse : String → Option Container) : ServerInfo :=
  match conn with
  | ConnectionAttempt.noPassword => ⟨creds, [], [], "ssh_failed", some ("No password provided")⟩
  | ConnectionAttempt.sshFail m => ⟨creds, [], [], "ssh_failed", some m⟩
  | ConnectionAttempt.connected s =>
    match DockerDiscoveryService.discover_containers creds.hostname s parse with
    | Except.ok r => ⟨creds, r.1, r.2, "success", none⟩
    | Except.error e =>
      let e2 := SSHConnectionManager.wrapBodyError creds.hostname e
      ⟨creds, [], [], statusOfError e2, some (errMessage e2)⟩

/-- How `InfraMapper.run` terminates: normal completion, `KeyboardInterrupt`,
an `InfraMapperError`, or any other exception (`__main__.py` lines 88-96). -/
inductive RunOutcome
| completed
| keyboardInterrupt
| appFailure (msg : String)
| unexpected (msg : String)
deriving DecidableEq, Repr

/-- The process exit status chosen by `InfraMapper.run` for each termination:
a completed run returns normally (exit 0), `KeyboardInterrupt` calls
`sys.exit(0)`, and both `InfraMapperError` and unexpected exceptions call
`sys.exit(1)`. -/
def runExitCode : RunOutcome → Nat
| RunOutcome.completed => 0
| RunOutcome.keyboardInterrupt => 0
| RunOutcome.appFailure _ => 1
| RunOutcome.unexpected _ => 1

/-- Python truthiness of an optional string: `None` and the empty string are
falsy. -/
def truthyOptStr : Option String → Bool
| none => false
| some s => !s.isEmpty

/-- The `SSHConnectionManager` state set up by its `__init__`
(`core/ssh_manager.py` lines 14-37), which performs no validation. -/
structure SSHConnectionManager where
  hostname : String
  username : String
  key_path : Option String
  port : Nat
  password : Option String
deriving DecidableEq, Repr

/-- `SSHConnectionManager.__init__`: store the fields; a falsy `key_path`
argument is stored as `None` (the source keeps `Path(key_path).expanduser()`
only when the argument is truthy).  It never raises. -/
def SSHConnectionManager.init (hostname username : String) (key_path : Option String)
    (port : Nat) (password : Option String) : SSHConnectionManager :=
  ⟨hostname, username, if truthyOptStr key_path then key_path else none, port, password⟩

/-- Which authentication branch `connect` would take. -/
inductive AuthChoice
| password
| key
deriving DecidableEq, Repr

/-- The authentication-selection logic at the top of
`SSHConnectionManager.connect` (lines 56-87): a truthy password selects
password auth, otherwise a present key path selects key auth, otherwise
`SSHConnectionError` is raised before any network activity, so no session is
ever yielded.  The network handshake itself is an external effect beyond the
raised-or-not decision modelled here. -/
def SSHConnectionManager.connectAuth (m : SSHConnectionManager) : Except String AuthChoice :=
  if truthyOptStr m.password then Except.ok AuthChoice.password
  else if m.key_path.isSome then Except.ok AuthChoice.key
  else Except.error ("No authentication method provided. Supply either key_path or password.")

/-- Replace every occurrence of character `a` in `s` by character `b`
(Python's `str.replace` for a single-character pair). -/
def replaceCharChar (s : String) (a b : Char) : String :=
  String.mk (s.data.map fun c => if c = a then b else c)

/-- Replace every occurrence of character `a` in `s` by string `r`
(Python's `str.replace` for a single-character pattern). -/
def replaceCharStr (s : String) (a : Char) (r : String) : String :=
  String.join (s.data.map fun c => if c = a then r else String.mk [c])

/-- `MermaidGenerator._sanitize_text`: sequentially replace the characters
that might break Mermaid syntax (double quote, brackets, braces, pipe) by
safe equivalents, following the source's replacement table order. -/
def MermaidGenerator._sanitize_text (text : String) : String :=
  let replacements : List (Char × Char) :=
    [(Char.ofNat 34, Char.ofNat 39), ('[', '('), (']', ')'),
     (Char.ofNat 123, '('), (Char.ofNat 125, ')'), ('|', '/')]
  replacements.foldl (fun t pr => replaceCharChar t pr.1 pr.2) text

/-- Python `html.escape` with quoting, as used by the HTML generator:
ampersand first, then angle brackets, then both quote characters. -/
def htmlEscape (s : String) : String :=
  let replacements : List (Char × String) :=
    [('&', "&amp;"), ('<', "&lt;"), ('>', "&gt;"),
     (Char.ofNat 34, "&quot;"), (Char.ofNat 39, "&#x27;")]
  replacements.foldl (fun t pr => replaceCharStr t pr.1 pr.2) s

/-- The mutable identifier state of a `MermaidGenerator` instance:
`node_counter` and the insertion-ordered `node_map`. -/
structure GenState where
  node_counter : Nat
  node_map : List (String × String)
deriving DecidableEq, Repr

/-- The safe-key derivation inside `_get_node_id`: every non-alphanumeric
character becomes an underscore. -/
def sanitizeKeyName (name : String) : String :=
  String.mk (name.data.map fun c => if c.isAlphanum then c else '_')

/-- `MermaidGenerator._get_node_id`: memoized deterministic identifiers.  The
key is the type tag plus the sanitized name; an unseen key is assigned
`tag ++ counter` and appended to the map. -/
def MermaidGenerator._get_node_id (st : GenState) (tag name : String) : String × GenState :=
  let key := tag ++ "_" ++ sanitizeKeyName name
  match assocLookup key st.node_map with
  | some v => (v, st)
  | none =>
    let nid := tag ++ toString st.node_counter
    (nid, ⟨st.node_counter + 1, st.node_map ++ [(key, nid)]⟩)

/-- The Mermaid identity key of a port mapping (`mermaid_generator.py` line
141 and `html_generator.py` line 149): exposed host port, internal container
port and protocol — the bound host address does not participate. -/
def portKey (p : PortMapping) : String :=
  toString p.host_port ++ "_" ++ toString p.container_port ++ "_" ++ p.protocol

/-- The body of the `if port_key not in seen_ports` branch of
`_generate_container` (lines 144-158): emit the edge, the endpoint node, its
class line and the click link.  The URL scheme is `https` exactly when the
exposed host port equals 443.  Returns the lines, the assigned port node id
and the updated identifier state. -/
def MermaidGenerator.renderPortBlock (server_hostname container_name container_id : String)
    (st : GenState) (p : PortMapping) : List String × String × GenState :=
  let r := MermaidGenerator._get_node_id st ("port")
    (server_hostname ++ "_" ++ container_name ++ "_" ++ portKey p)
  let port_id := r.1
  let port_display := toString p.host_port ++ " → " ++ toString p.container_port ++ "/" ++ p.protocol
  let protocol := if p.host_port = 443 then "https" else "http"
  let url := protocol ++ "://" ++ server_hostname ++ ":" ++ toString p.host_port
  (["    " ++ container_id ++ " --> " ++ port_id,
    "    " ++ port_id ++ "[\"🔌 " ++ port_display ++ "\"]",
    "    class " ++ port_id ++ " port",
    "    click " ++ port_id ++ " href \"" ++ url ++ "\""],
   port_id, r.2)

/-- The port-mapping loop of `_generate_container` (lines 138-159): walk the
mappings in order, skipping any whose identity key was already seen, and
record each newly rendered key in `seen_ports`. -/
def MermaidGenerator.renderPortsGo (server_hostname container_name container_id : String)
    (seen : List (String × String)) (st : GenState) :
    List PortMapping → List String × GenState
| [] => ([], st)
| p :: ps =>
  if (assocLookup (portKey p) seen).isSome then
    MermaidGenerator.renderPortsGo server_hostname container_name container_id seen st ps
  else
    let b := MermaidGenerator.renderPortBlock server_hostname container_name container_id st p
    let rest := MermaidGenerator.renderPortsGo server_hostname container_name container_id
      (seen ++ [(portKey p, b.2.1)]) b.2.2 ps
    (b.1 ++ rest.1, rest.2)

/-- Specification-side renderer used to state deduplication: emit one endpoint
block per list element, unconditionally and in order.  The claim compares the
source loop against this function applied to the first-occurrence-per-key
sublist. -/
def MermaidGenerator.renderPortsAll (server_hostname container_name container_id : String)
    (st : GenState) : List PortMapping → List String × GenState
| [] => ([], st)
| p :: ps =>
  let b := MermaidGenerator.renderPortBlock server_hostname container_name container_id st p
  let rest := MermaidGenerator.renderPortsAll server_hostname container_name container_id b.2.2 ps
  (b.1 ++ rest.1, rest.2)

/-- `MermaidGenerator._generate_container`: container node id, edge from the
parent, labelled node with sanitized name/image, class line, then the
deduplicated port mappings. -/
def MermaidGenerator._generate_container (parent_id server_hostname : String)
    (container : Container) (is_standalone : Bool) (st : GenState) : List String × GenState :=
  let r := MermaidGenerator._get_node_id st ("container") (server_hostname ++ "_" ++ container.name)
  let container_id := r.1
  let icon := if is_standalone then "🐳" else "🔷"
  let safe_name := MermaidGenerator._sanitize_text container.name
  let safe_image := MermaidGenerator._sanitize_text container.image
  let header :=
    ["    " ++ parent_id ++ " --> " ++ container_id,
     "    " ++ container_id ++ "[\"" ++ icon ++ " " ++ safe_name ++ "<br/><small>" ++ safe_image ++ "</small>\"]",
     if is_standalone then "    class " ++ container_id ++ " standalone"
     else "    class " ++ container_id ++ " container"]
  let pr := MermaidGenerator.renderPortsGo server_hostname container.name container_id [] r.2 container.ports
  (header ++ pr.1, pr.2)

/-- The per-stack container loop inside `_generate_stack` / the standalone
loop inside `generate`. -/
def MermaidGenerator.generateContainers (parent_id server_hostname : String) (is_standalone : Bool)
    (st : GenState) : List Container → List String × GenState
| [] => ([], st)
| c :: cs =>
  let r := MermaidGenerator._generate_container parent_id server_hostname c is_standalone st
  let rest := MermaidGenerator.generateContainers parent_id server_hostname is_standalone r.2 cs
  (r.1 ++ rest.1, rest.2)

/-- `MermaidGenerator._generate_stack`: stack node edged from the host, then
one member container after another with `is_standalone=False`. -/
def MermaidGenerator._generate_stack (parent_id server_hostname : String) (stack : DockerStack)
    (st : GenState) : List String × GenState :=
  let r := MermaidGenerator._get_node_id st ("stack") (server_hostname ++ "_" ++ stack.project_name)
  let stack_id := r.1
  let header :=
    ["    " ++ parent_id ++ " --> " ++ stack_id,
     "    " ++ stack_id ++ "[\"📦 Stack: " ++ stack.project_name ++ "\"]",
     "    class " ++ stack_id ++ " stack"]
  let cr := MermaidGenerator.generateContainers stack_id server_hostname false r.2 stack.containers
  (header ++ cr.1, cr.2)

/-- The stack loop of `MermaidGenerator.generate`. -/
def MermaidGenerator.generateStacks (parent_id server_hostname : String) (st : GenState) :
    List DockerStack → List String × GenState
| [] => ([], st)
| s :: ss =>
  let r := MermaidGenerator._generate_stack parent_id server_hostname s st
  let rest := MermaidGenerator.generateStacks parent_id server_hostname r.2 ss
  (r.1 ++ rest.1, rest.2)

/-- The per-server loop of `MermaidGenerator.generate`: a host whose
connection status is not `success` gets a single failed-styled node and its
scan is skipped; a successful host gets its node, its stacks and its
standalone containers. -/
def MermaidGenerator.generateServers (st : GenState) : List ServerInfo → List String × GenState
| [] => ([], st)
| server :: rest =>
  let server_hostname := server.credentials.hostname
  if server.connection_status ≠ "success" then
    let r := MermaidGenerator._get_node_id st ("server") server_hostname
    let lines := ["    " ++ r.1 ++ "[\"🖥️ " ++ server_hostname ++ " (failed)\"]",
                  "    class " ++ r.1 ++ " serverFailed"]
    let rr := MermaidGenerator.generateServers r.2 rest
    (lines ++ rr.1, rr.2)
  else
    let r := MermaidGenerator._get_node_id st ("server") server_hostname
    let lines := ["    " ++ r.1 ++ "[\"🖥️ " ++ server_hostname ++ "\"]",
                  "    class " ++ r.1 ++ " server"]
    let sr := MermaidGenerator.generateStacks r.1 server_hostname r.2 server.docker_stacks
    let cr := MermaidGenerator.generateContainers r.1 server_hostname true sr.2 server.standalone_containers
    let rr := MermaidGenerator.generateServers cr.2 rest
    (lines ++ sr.1 ++ cr.1 ++ rr.1, rr.2)

/-- `MermaidGenerator._generate_styles`: the fixed class definitions. -/
def MermaidGenerator._generate_styles : List String :=
  ["    classDef server fill:#b3d9ff,stroke:#01579b,stroke-width:3px,color:#000",
   "    classDef serverFailed fill:#ffcdd2,stroke:#c62828,stroke-width:2px,color:#000",
   "    classDef stack fill:#ffe0b2,stroke:#e65100,stroke-width:2px,color:#000",
   "    classDef container fill:#c8e6c9,stroke:#2e7d32,stroke-width:2px,color:#000",
   "    classDef standalone fill:#e1bee7,stroke:#6a1b9a,stroke-width:2px,color:#000",
   "    classDef port fill:#f8bbd0,stroke:#c2185b,stroke-width:1px,color:#000",
   ""]

/-- `MermaidGenerator.generate`: the method receives the generator's current
identifier state (`_st`, the instance attributes) and immediately resets it to
a fresh counter and empty map before building the diagram, so the prior state
never influences the output. -/
def MermaidGenerator.generate (_st : GenState) (servers : List ServerInfo) : String × GenState :=
  let st0 : GenState := ⟨0, []⟩
  let body := MermaidGenerator.generateServers st0 servers
  (String.intercalate ("\n")
    ((["```mermaid", "graph LR"] ++ MermaidGenerator._generate_styles) ++ body.1 ++ ["```"]),
   body.2)

/-- The inline style applied to HTML port links. -/
def HtmlGenerator.portLinkStyle : String := "color: #e91e63; text-decoration: none; font-weight: 500;"

/-- The anchor built for one port mapping inside `HtmlGenerator._format_ports`:
scheme `https` exactly for exposed host port 443, host and protocol
HTML-escaped. -/
def HtmlGenerator.portAnchor (hostname : String) (p : PortMapping) : String :=
  let protocol := if p.host_port = 443 then "https" else "http"
  let url := protocol ++ "://" ++ htmlEscape hostname ++ ":" ++ toString p.host_port
  let display := toString p.host_port ++ " &rarr; " ++ toString p.container_port ++ "/" ++ htmlEscape p.protocol
  "<a href=\"" ++ url ++ "\" style=\"" ++ HtmlGenerator.portLinkStyle ++ "\">" ++ display ++ "</a>"

/-- The loop of `HtmlGenerator._format_ports` (lines 148-159): the `seen` dict
maps each identity key to the anchor built from the first mapping carrying
that key; later duplicates are skipped. -/
def HtmlGenerator.formatPortsGo (hostname : String) (seen : List (String × String)) :
    List PortMapping → List (String × String)
| [] => seen
| p :: ps =>
  if (assocLookup (portKey p) seen).isSome then HtmlGenerator.formatPortsGo hostname seen ps
  else HtmlGenerator.formatPortsGo hostname
    (seen ++ [(portKey p, HtmlGenerator.portAnchor hostname p)]) ps

/-- `HtmlGenerator._format_ports`: the deduplicated anchors joined with
`<br>` breaks, in insertion order. -/
def HtmlGenerator._format_ports (hostname : String) (container : Container) : String :=
  String.intercalate ("<br>")
    ((HtmlGenerator.formatPortsGo hostname [] container.ports).map Prod.snd)

/-- Specification-side: first occurrence of each identity key among the
mappings whose key is not already in `ks`. -/
def filterNewKeys (ks : List String) : List PortMapping → List PortMapping
| [] => []
| p :: ps =>
  if portKey p ∈ ks then filterNewKeys ks ps
  else p :: filterNewKeys (ks ++ [portKey p]) ps

/-- Specification-side: the first-encountered mapping for each distinct
identity key, in encounter order. -/
def firstPerKey (ports : List PortMapping) : List PortMapping := filterNewKeys [] ports

/-- Specification-side: first-seen deduplication of a string list, relative to
an already-seen prefix `ks`. -/
def dedupNew (ks : List String) : List String → List String
| [] => []
| k :: l => if k ∈ ks then dedupNew ks l else k :: dedupNew (ks ++ [k]) l

/-- Specification-side: the distinct identity keys of a port list, in
first-seen order. -/
def dedupKeys (ports : List PortMapping) : List String := dedupNew [] (ports.map portKey)

/-- Specification-side: members of the group named `p`, in discovery order. -/
def groupMembers (cs : List Container) (p : String) : List Container :=
  cs.filter (fun c => Container.compose_project c = some p)

/-- Specification-side: first-seen-order project label values of `cs` whose
value is not already in `ks`. -/
def newProjects (ks : List String) : List Container → List String
| [] => []
| c :: cs =>
  match Container.compose_project c with
  | some p => if p ∈ ks then newProjects ks cs else p :: newProjects (ks ++ [p]) cs
  | none => newProjects ks cs

/-- Specification-side: the distinct project label values of `cs` in
first-seen order. -/
def projectsInOrder (cs : List Container) : List String := newProjects [] cs

/-- A password-mode credential (valid for the pydantic model: password auth
needs no key path). -/
def pwCred : ServerCredentials := ⟨"host1", "alice", AuthMethod.password, none, 22⟩

/-- A key-mode credential with its required key path. -/
def keyCred : ServerCredentials :=
  ⟨"host2", "bob", AuthMethod.key, some "/home/bob/.ssh/id_rsa", 22⟩

/-- The inspection-parse oracle for scenarios in which no container is ever
inspected (or every inspection fails). -/
def parseNone : String → Option Container := fun _ => none

/-- A workload binding internal port 80/tcp on host port 8080 and internal
port 443/tcp on host port 8443 — the C2 scenario. -/
def cWeb : Container :=
  ⟨"abc123def456", "web", "nginx:latest", "running",
   [⟨80, 8080, "tcp", "0.0.0.0"⟩, ⟨443, 8443, "tcp", "0.0.0.0"⟩], ["bridge"], [], none⟩

/-- A workload with dual-stack bindings: the same identity key
(5432, 5432, tcp) bound on two host addresses. -/
def dupPortsContainer : Container :=
  ⟨"cafebabe1234", "db", "postgres:16", "running",
   [⟨5432, 5432, "tcp", "0.0.0.0"⟩, ⟨5432, 5432, "tcp", "::"⟩], ["bridge"], [], none⟩

/-- Credentials of a host used in the permission-denied scenario. -/
def permCreds : ServerCredentials :=
  ⟨"prodhost", "root", AuthMethod.key, some "/root/.ssh/id_rsa", 22⟩

/-- A session whose availability probe exits non-zero with a
permission-related stderr phrase. -/
def permSession : DockerSession :=
  ⟨⟨1, "", "sudo: docker: Permission denied"⟩, ⟨0, "", ""⟩, fun _ => ⟨0, "", ""⟩⟩

/-- A session whose probe succeeds and whose inventory command produces
whitespace-only output. -/
def emptyPsSession : DockerSession :=
  ⟨⟨0, "Docker version 24.0.7, build afdd53b", ""⟩, ⟨0, "\n", ""⟩, fun _ => ⟨0, "", ""⟩⟩

/-- A session whose probe succeeds and whose inventory command fails with a
non-zero exit code. -/
def failPsSession : DockerSession :=
  ⟨⟨0, "Docker version 24.0.7, build afdd53b", ""⟩,
   ⟨1, "", "Cannot connect to the Docker daemon"⟩, fun _ => ⟨0, "", ""⟩⟩

/-- A key is found by `assocLookup` exactly when it occurs among the keys. -/
theorem assocLookup_isSome_iff (k : String) :
    ∀ (l : List (String × α)), (assocLookup k l).isSome = true ↔ k ∈ l.map Prod.fst := by
  intro l
  induction l with
  | nil => simp [assocLookup]
  | cons hd tl ih =>
    obtain ⟨q, v⟩ := hd
    by_cases hq : q = k
    · subst hq
      simp [assocLookup]
    · simp [assocLookup, hq, ih, Ne.symm hq]

/-- The source's seen-key-skipping port loop renders exactly the
first-per-key sublist of the mappings, one block each. -/
theorem renderPortsGo_eq_all (h n cid : String) :
    ∀ (ps : List PortMapping) (seen : List (String × String)) (st : GenState),
      MermaidGenerator.renderPortsGo h n cid seen st ps =
        MermaidGenerator.renderPortsAll h n cid st (filterNewKeys (seen.map Prod.fst) ps) := by
  intro ps
  induction ps with
  | nil =>
    intro seen st
    simp [MermaidGenerator.renderPortsGo, MermaidGenerator.renderPortsAll, filterNewKeys]
  | cons p ps ih =>
    intro seen st
    by_cases hmem : portKey p ∈ seen.map Prod.fst
    · have hsome : (assocLookup (portKey p) seen).isSome = true :=
        (assocLookup_isSome_iff _ _).mpr hmem
      simp only [MermaidGenerator.renderPortsGo, hsome, if_true, filterNewKeys, hmem]
      exact ih seen st
    · have hnone : ¬ (assocLookup (portKey p) seen).isSome = true := by
        simpa [assocLookup_isSome_iff] using hmem
      simp only [MermaidGenerator.renderPortsGo, hnone, if_false,
        filterNewKeys, hmem, MermaidGenerator.renderPortsAll]
      rw [ih (seen ++ [(portKey p, (MermaidGenerator.renderPortBlock h n cid st p).2.1)])
            (MermaidGenerator.renderPortBlock h n cid st p).2.2]
      simp [List.map_append]

/-- The identity keys of the first-per-key sublist are the first-seen
deduplicated keys. -/
theorem filterNewKeys_map_portKey :
    ∀ (ps : List PortMapping) (ks : List String),
      (filterNewKeys ks ps).map portKey = dedupNew ks (ps.map portKey) := by
  intro ps
  induction ps with
  | nil => intro ks; simp [filterNewKeys, dedupNew]
  | cons p ps ih =>
    intro ks
    by_cases hmem : portKey p ∈ ks
    · simp [filterNewKeys, dedupNew, hmem, ih]
    · simp [filterNewKeys, dedupNew, hmem, ih]

/-- First-seen deduplication never returns an already-seen element. -/
theorem dedupNew_not_mem :
    ∀ (l ks : List String) (x : String), x ∈ dedupNew ks l → x ∉ ks := by
  intro l
  induction l with
  | nil => intro ks x hx; simp [dedupNew] at hx
  | cons k l ih =>
    intro ks x hx
    by_cases hk : k ∈ ks
    · exact ih ks x (by simpa [dedupNew, hk] using hx)
    · simp only [dedupNew, hk, if_false, List.mem_cons] at hx
      rcases hx with rfl | hx
      · exact hk
      · intro hxks
        exact ih (ks ++ [k]) x hx (by simp [hxks])

/-- First-seen deduplication yields a duplicate-free list. -/
theorem dedupNew_nodup : ∀ (l ks : List String), (dedupNew ks l).Nodup := by
  intro l
  induction l with
  | nil => intro ks; simp [dedupNew]
  | cons k l ih =>
    intro ks
    by_cases hk : k ∈ ks
    · simpa [dedupNew, hk] using ih ks
    · simp only [dedupNew, hk, if_false, List.nodup_cons]
      refine ⟨fun hmem => ?_, ih (ks ++ [k])⟩
      exact dedupNew_not_mem _ _ _ hmem (by simp)

/-- The HTML port loop accumulates exactly one anchor per distinct new
identity key, built from the first-encountered mapping for that key. -/
theorem formatPortsGo_eq (h : String) :
    ∀ (ps : List PortMapping) (seen : List (String × String)),
      HtmlGenerator.formatPortsGo h seen ps =
        seen ++ (filterNewKeys (seen.map Prod.fst) ps).map
          (fun p => (portKey p, HtmlGenerator.portAnchor h p)) := by
  intro ps
  induction ps with
  | nil => intro seen; simp [HtmlGenerator.formatPortsGo, filterNewKeys]
  | cons p ps ih =>
    intro seen
    by_cases hmem : portKey p ∈ seen.map Prod.fst
    · have hsome : (assocLookup (portKey p) seen).isSome = true :=
        (assocLookup_isSome_iff _ _).mpr hmem
      simp only [HtmlGenerator.formatPortsGo, hsome, if_true, filterNewKeys, hmem]
      exact ih seen
    · have hnone : ¬ (assocLookup (portKey p) seen).isSome = true := by
        simpa [assocLookup_isSome_iff] using hmem
      simp only [HtmlGenerator.formatPortsGo, hnone, if_false, filterNewKeys, hmem]
      rw [ih (seen ++ [(portKey p, HtmlGenerator.portAnchor h p)])]
      simp [List.map_append]

/-- Appending under a fresh project key places the new bucket at the end. -/
theorem addToDict_not_mem (c : Container) :
    ∀ (d : List (String × List Container)) (p : String),
      p ∉ d.map Prod.fst → addToDict d p c = d ++ [(p, [c])] := by
  intro d
  induction d with
  | nil => intro p _; simp [addToDict]
  | cons hd tl ih =>
    obtain ⟨q, m⟩ := hd
    intro p hp
    simp only [List.map_cons, List.mem_cons, not_or] at hp
    simp [addToDict, Ne.symm hp.1, ih p hp.2]

/-- Mapping the conditional bucket-append over a dict without the key is the
identity. -/
theorem map_if_fst_eq_self (c : Container) (p : String) :
    ∀ (d : List (String × List Container)), p ∉ d.map Prod.fst →
      d.map (fun pr => if pr.1 = p then (pr.1, pr.2 ++ [c]) else pr) = d := by
  intro d
  induction d with
  | nil => intro _; simp
  | cons hd tl ih =>
    obtain ⟨q, m⟩ := hd
    intro hp
    simp only [List.map_cons, List.mem_cons, not_or] at hp
    simp [Ne.symm hp.1, ih hp.2]

/-- Appending under an existing key (in a dict with unique keys) appends the
container to exactly that bucket. -/
theorem addToDict_mem (c : Container) :
    ∀ (d : List (String × List Container)) (p : String),
      (d.map Prod.fst).Nodup → p ∈ d.map Prod.fst →
      addToDict d p c = d.map (fun pr => if pr.1 = p then (pr.1, pr.2 ++ [c]) else pr) := by
  intro d
  induction d with
  | nil => intro p _ hp; simp at hp
  | cons hd tl ih =>
    obtain ⟨q, m⟩ := hd
    intro p hnd hp
    simp only [List.map_cons, List.nodup_cons] at hnd
    by_cases hq : q = p
    · subst hq
      simp [addToDict, map_if_fst_eq_self c q tl hnd.1]
    · have hp' : p ∈ tl.map Prod.fst := by
        simp only [List.map_cons, List.mem_cons] at hp
        rcases hp with h | h
        · exact absurd h.symm hq
        · exact h
      simp [addToDict, hq, ih p hnd.2 hp']

/-- Appending under an existing key leaves the key sequence unchanged. -/
theorem addToDict_keys_mem (c : Container) (d : List (String × List Container)) (p : String)
    (hnd : (d.map Prod.fst).Nodup) (hp : p ∈ d.map Prod.fst) :
    (addToDict d p c).map Prod.fst = d.map Prod.fst := by
  rw [addToDict_mem c d p hnd hp, List.map_map]
  apply List.map_congr_left
  intro pr _
  by_cases h : pr.1 = p <;> simp [h]

/-- New first-seen projects exclude everything already seen. -/
theorem newProjects_not_mem :
    ∀ (cs : List Container) (ks : List String) (q : String),
      q ∈ newProjects ks cs → q ∉ ks := by
  intro cs
  induction cs with
  | nil => intro ks q hq; simp [newProjects] at hq
  | cons c cs ih =>
    intro ks q hq
    cases hc : Container.compose_project c with
    | none => exact ih ks q (by simpa [newProjects, hc] using hq)
    | some p =>
      by_cases hp : p ∈ ks
      · exact ih ks q (by simpa [newProjects, hc, hp] using hq)
      · simp only [newProjects, hc, hp, if_false, List.mem_cons] at hq
        rcases hq with rfl | hq
        · exact hp
        · intro hqks
          exact ih (ks ++ [p]) q hq (by simp [hqks])

/-- The first-seen project list is duplicate-free. -/
theorem newProjects_nodup : ∀ (cs : List Container) (ks : List String),
    (newProjects ks cs).Nodup := by
  intro cs
  induction cs with
  | nil => intro ks; simp [newProjects]
  | cons c cs ih =>
    intro ks
    cases hc : Container.compose_project c with
    | none => simpa [newProjects, hc] using ih ks
    | some p =>
      by_cases hp : p ∈ ks
      · simpa [newProjects, hc, hp] using ih ks
      · simp only [newProjects, hc, hp, if_false, List.nodup_cons]
        refine ⟨fun hmem => ?_, ih (ks ++ [p])⟩
        exact newProjects_not_mem _ _ _ hmem (by simp)

/-- Every unseen project value carried by some container appears among the
first-seen projects. -/
theorem mem_newProjects_of :
    ∀ (cs : List Container) (ks : List String) (c : Container) (p : String),
      c ∈ cs → Container.compose_project c = some p → p ∉ ks → p ∈ newProjects ks cs := by
  intro cs
  induction cs with
  | nil => intro ks c p hc _ _; simp at hc
  | cons c0 cs ih =>
    intro ks c p hc hproj hp
    rcases List.mem_cons.mp hc with rfl | hc
    · simp only [newProjects, hproj, hp, if_false]
      exact List.mem_cons_self _ _
    · cases hc0 : Container.compose_project c0 with
      | none => simpa [newProjects, hc0] using ih ks c p hc hproj hp
      | some q =>
        by_cases hq : q ∈ ks
        · simpa [newProjects, hc0, hq] using ih ks c p hc hproj hp
        · simp only [newProjects, hc0, hq, if_false, List.mem_cons]
          by_cases hpq : p = q
          · exact Or.inl hpq
          · exact Or.inr (ih (ks ++ [q]) c p hc hproj (by simp [hp, hpq]))

/-- Characterization of the classification loop: starting from a dict with
unique keys, the final dict appends to each existing bucket the matching
containers in order, followed by one fresh bucket per first-seen new project;
the standalone list extends with the unlabelled containers in order. -/
theorem classifyGo_spec :
    ∀ (cs : List Container) (d : List (String × List Container)) (st : List Container),
      (d.map Prod.fst).Nodup →
      classifyGo d st cs =
        (d.map (fun pr => (pr.1, pr.2 ++ groupMembers cs pr.1))
           ++ (newProjects (d.map Prod.fst) cs).map (fun p => (p, groupMembers cs p)),
         st ++ cs.filter (fun c => (Container.compose_project c).isNone)) := by
  intro cs
  induction cs with
  | nil =>
    intro d st _
    simp [classifyGo, groupMembers, newProjects]
  | cons c cs ih =>
    intro d st hnd
    cases hc : Container.compose_project c with
    | none =>
      simp only [classifyGo, hc]
      rw [ih d (st ++ [c]) hnd]
      simp [groupMembers, List.filter_cons, hc, newProjects]
    | some p =>
      by_cases hp : p ∈ d.map Prod.fst
      · have hkeys := addToDict_keys_mem c d p hnd hp
        simp only [classifyGo, hc]
        rw [ih (addToDict d p c) st (by rw [hkeys]; exact hnd)]
        rw [hkeys, addToDict_mem c d p hnd hp]
        simp only [Prod.mk.injEq]
        refine ⟨?_, by simp [List.filter_cons, hc]⟩
        rw [List.map_map]
        congr 1
        · apply List.map_congr_left
          intro pr _
          by_cases hpe : pr.1 = p
          · simp [Function.comp, hpe, groupMembers, List.filter_cons, hc, List.append_assoc]
          · have hpe' : p ≠ pr.1 := fun h => hpe h.symm
            simp [Function.comp, hpe, groupMembers, List.filter_cons, hc, hpe']
        · rw [show newProjects (d.map Prod.fst) (c :: cs) = newProjects (d.map Prod.fst) cs by
                simp [newProjects, hc, hp]]
          apply List.map_congr_left
          intro q hq
          have hqks := newProjects_not_mem cs (d.map Prod.fst) q hq
          have hqp : p ≠ q := fun h => hqks (h ▸ hp)
          simp [groupMembers, List.filter_cons, hc, hqp]
      · have hnd' : ((d ++ [(p, [c])]).map Prod.fst).Nodup := by
          rw [List.map_append]
          rw [List.nodup_append]
          refine ⟨hnd, by simp, ?_⟩
          intro a ha hain
          simp only [List.map_cons, List.map_nil, List.mem_singleton] at hain
          subst hain
          exact hp ha
        simp only [classifyGo, hc]
        rw [addToDict_not_mem c d p hp]
        rw [ih (d ++ [(p, [c])]) st hnd']
        simp only [Prod.mk.injEq]
        refine ⟨?_, by simp [List.filter_cons, hc]⟩
        rw [List.map_append, List.map_append]
        rw [show newProjects (d.map Prod.fst) (c :: cs) = p :: newProjects (d.map Prod.fst ++ [p]) cs by
              simp [newProjects, hc, hp]]
        simp only [List.map_cons, List.map_nil]
        rw [List.append_assoc]
        congr 1
        · apply List.map_congr_left
          intro pr hpr
          have hpe : pr.1 ≠ p := by
            intro h
            exact hp (h ▸ List.mem_map_of_mem Prod.fst hpr)
          have hpe' : p ≠ pr.1 := fun h => hpe h.symm
          simp [groupMembers, List.filter_cons, hc, hpe']
        · rw [List.singleton_append]
          congr 1
          · simp [groupMembers, List.filter_cons, hc]
          · apply List.map_congr_left
            intro q hq
            have hqks := newProjects_not_mem cs (d.map Prod.fst ++ [p]) q hq
            have hqp : p ≠ q := by
              intro h
              exact hqks (by simp [h])
            simp [groupMembers, List.filter_cons, hc, hqp]

/-- The classification of a discovered container list: one stack per
first-seen project value holding that project's containers in discovery
order, and the unlabelled containers as the standalone list in order. -/
theorem classifyDiscovered_spec (cs : List Container) :
    classifyDiscovered cs =
      ((projectsInOrder cs).map (fun p => ⟨p, groupMembers cs p⟩),
       cs.filter (fun c => (Container.compose_project c).isNone)) := by
  unfold classifyDiscovered
  rw [classifyGo_spec cs [] [] (by simp)]
  simp [projectsInOrder, List.map_map]

/-- C1: the round-trip claim fails on the code.  A password-mode credential is
constructible and is saved with `auth_method: password`, but `load_servers`
remaps the stored value `password` to `pass`, which the `ServerCredentials`
model rejects, so reloading a just-saved password entry raises
`ConfigurationError` instead of reproducing the entry.  Key-mode entries do
round-trip exactly (and no saved entry ever carries a secret, since
`_serialize_server` writes only hostname, username, auth method, port and key
path). -/
theorem C1_password_roundtrip_bug :
    mkServerCredentials ("host1") ("alice") ("password") none 22 = Except.ok pwCred
    ∧ ConfigManager.load_servers (ConfigManager.save_servers [pwCred]) =
        Except.error ("Invalid configuration format: auth_method must be key or password")
    ∧ ConfigManager.load_servers (ConfigManager.save_servers [keyCred]) = Except.ok [keyCred] :=
  ⟨rfl, rfl, rfl⟩

/-- C2 counterexample: rendering the workload that exposes 80/tcp on 8080 and
443/tcp on 8443 emits a `click` URL with scheme `http` for the 8443 endpoint,
and no rendered line mentions `https` at all — the claim's assertion that the
8443 endpoint node carries an `https` URL is false (`_generate_container`
uses `https` only when the exposed host port is exactly 443). -/
theorem C2_counterexample_https_missing :
    ((MermaidGenerator._generate_container ("server0") ("myhost") cWeb true ⟨1, []⟩).1).contains
        ("    click port3 href \"http://myhost:8443\"") = true
    ∧ ((MermaidGenerator._generate_container ("server0") ("myhost") cWeb true ⟨1, []⟩).1).any
        (fun l => strContainsSub l ("https")) = false :=
  ⟨rfl, rfl⟩

/-- C2 amended: a workload whose port-binding map contains both 80/tcp→8080
and 443/tcp→8443 is rendered with two distinct endpoint nodes (`port2` and
`port3`), and the endpoint node for the 8443 mapping carries a URL with
scheme `http` — `https` is used only when the exposed host port is exactly
443.  The full rendering is computed below. -/
theorem C2_endpoints_amended :
    (MermaidGenerator._generate_container ("server0") ("myhost") cWeb true ⟨1, []⟩).1 =
      ["    server0 --> container1",
       "    container1[\"🐳 web<br/><small>nginx:latest</small>\"]",
       "    class container1 standalone",
       "    container1 --> port2",
       "    port2[\"🔌 8080 → 80/tcp\"]",
       "    class port2 port",
       "    click port2 href \"http://myhost:8080\"",
       "    container1 --> port3",
       "    port3[\"🔌 8443 → 443/tcp\"]",
       "    class port3 port",
       "    click port3 href \"http://myhost:8443\""] := by
  rfl

/-- C3 counterexample: for a host whose availability probe exits non-zero
with `permission denied` in stderr, the recorded outcome is `ssh_failed` —
the `DockerPermissionError` raised by the probe is thrown into `connect`'s
generator at the `yield` and converted by its catch-all into
`SSHConnectionError`, so `_discover_server` records exactly the same status
as a plain SSH connection failure; the outcome is in particular not any
permission-specific value such as `permission_denied`. -/
theorem C3_counterexample_no_permission_outcome :
    (InfraMapper._discover_server permCreds (ConnectionAttempt.connected permSession)
        parseNone).connection_status = "ssh_failed"
    ∧ (InfraMapper._discover_server permCreds (ConnectionAttempt.connected permSession)
          parseNone).connection_status
        = (InfraMapper._discover_server permCreds
            (ConnectionAttempt.sshFail ("connection refused")) parseNone).connection_status
    ∧ ¬ (InfraMapper._discover_server permCreds (ConnectionAttempt.connected permSession)
          parseNone).connection_status = "permission_denied" :=
  ⟨rfl, rfl, by decide⟩

/-- C3 amended: for every host whose container-runtime availability probe
returns a non-zero exit code with stderr containing the permission phrase,
the `DockerPermissionError` raised by the probe is converted by the `connect`
context manager's catch-all into `SSHConnectionError`, so the recorded
outcome is `ssh_failed` — with the permission message retained inside the
wrapped error message — and it is never the tool-missing status
`no_docker`. -/
theorem C3_permission_ssh_failed_amended (creds : ServerCredentials) (s : DockerSession)
    (parse : String → Option Container)
    (hver : s.versionResult.exitCode ≠ 0)
    (hperm : strContainsSub (strToLower s.versionResult.stderr) ("permission denied") = true) :
    (InfraMapper._discover_server creds (ConnectionAttempt.connected s) parse).connection_status
        = "ssh_failed"
    ∧ (InfraMapper._discover_server creds (ConnectionAttempt.connected s) parse).error_message
        = some ("Failed to connect to " ++ creds.hostname ++ ": "
            ++ ("Docker permission denied on " ++ creds.hostname
              ++ ". User needs sudo access to Docker."))
    ∧ ¬ (InfraMapper._discover_server creds (ConnectionAttempt.connected s) parse).connection_status
        = "no_docker" := by
  unfold InfraMapper._discover_server DockerDiscoveryService.discover_containers
    DockerDiscoveryService._verify_docker_available SSHConnectionManager.wrapBodyError
  simp [hver, hperm, statusOfError, errMessage]

/-- Witness for the amended C3 theorem at the concrete permission session. -/
theorem C3_permission_ssh_failed_amended_witness :
    permSession.versionResult.exitCode ≠ 0
    ∧ strContainsSub (strToLower permSession.versionResult.stderr) ("permission denied") = true
    ∧ (InfraMapper._discover_server permCreds (ConnectionAttempt.connected permSession)
          parseNone).connection_status = "ssh_failed" :=
  ⟨by decide, rfl,
   (C3_permission_ssh_failed_amended permCreds permSession parseNone (by decide) rfl).1⟩

/-- C4: for every workload whose endpoint-mapping list contains duplicate
identity keys, both renderers deduplicate: the Mermaid port loop emits
exactly one endpoint block per distinct identity key — namely for the
first-encountered mapping of each key, in encounter order — and the HTML
report emits exactly one anchor per distinct key, again built from the
first-encountered mapping.  The rendered key list equals the first-seen
deduplication of all keys and is duplicate-free. -/
theorem C4_endpoint_dedup (server_hostname container_name container_id hostname : String)
    (st : GenState) (c : Container)
    (_hdup : (dedupKeys c.ports).length < c.ports.length) :
    MermaidGenerator.renderPortsGo server_hostname container_name container_id [] st c.ports =
        MermaidGenerator.renderPortsAll server_hostname container_name container_id st
          (firstPerKey c.ports)
    ∧ (firstPerKey c.ports).map portKey = dedupKeys c.ports
    ∧ ((firstPerKey c.ports).map portKey).Nodup
    ∧ HtmlGenerator._format_ports hostname c =
        String.intercalate ("<br>")
          ((firstPerKey c.ports).map (HtmlGenerator.portAnchor hostname)) := by
  have hkeys : (firstPerKey c.ports).map portKey = dedupKeys c.ports := by
    simpa [firstPerKey, dedupKeys] using filterNewKeys_map_portKey c.ports []
  refine ⟨?_, hkeys, ?_, ?_⟩
  · simpa [firstPerKey] using
      renderPortsGo_eq_all server_hostname container_name container_id c.ports [] st
  · rw [hkeys]
    exact dedupNew_nodup _ _
  · unfold HtmlGenerator._format_ports
    rw [formatPortsGo_eq hostname c.ports []]
    simp only [List.nil_append, List.map_nil, List.map_map, firstPerKey]
    congr 1

/-- Witness for C4 at a workload with dual-stack duplicate bindings. -/
theorem C4_endpoint_dedup_witness :
    (dedupKeys dupPortsContainer.ports).length < dupPortsContainer.ports.length
    ∧ (firstPerKey dupPortsContainer.ports).map portKey = dedupKeys dupPortsContainer.ports :=
  ⟨by decide,
   (C4_endpoint_dedup ("h1") ("db") ("container0") ("h1") ⟨0, []⟩ dupPortsContainer
     (by decide)).2.1⟩

/-- C5: classification is stable.  For every discovered container list,
(1) no project value names two groups, (2) groups appear in first-seen order
of their label values, (3) each group holds exactly the containers carrying
its label value, in original discovery order, (4) the ungrouped list is
exactly the unlabelled containers in discovery order, (5) a container lacking
the label never appears in any group, and (6) any two containers with the
same label value land in the same single group. -/
theorem C5_grouping_stable (cs : List Container) :
    ((classifyDiscovered cs).1.map DockerStack.project_name).Nodup
    ∧ (classifyDiscovered cs).1.map DockerStack.project_name = projectsInOrder cs
    ∧ (∀ s, s ∈ (classifyDiscovered cs).1 → s.containers = groupMembers cs s.project_name)
    ∧ (classifyDiscovered cs).2 = cs.filter (fun c => (Container.compose_project c).isNone)
    ∧ (∀ s, s ∈ (classifyDiscovered cs).1 → ∀ c, c ∈ s.containers →
        Container.is_compose_managed c = true)
    ∧ (∀ c1 c2 p, c1 ∈ cs → c2 ∈ cs →
        Container.compose_project c1 = some p → Container.compose_project c2 = some p →
        ∃ s, s ∈ (classifyDiscovered cs).1 ∧ c1 ∈ s.containers ∧ c2 ∈ s.containers) := by
  have hspec := classifyDiscovered_spec cs
  refine ⟨?_, ?_, ?_, ?_, ?_, ?_⟩
  · rw [hspec]
    simp only [List.map_map]
    have hcomp : (DockerStack.project_name ∘ fun p => (⟨p, groupMembers cs p⟩ : DockerStack)) =
        fun p => p := by
      funext p
      rfl
    rw [hcomp]
    simpa [projectsInOrder] using newProjects_nodup cs []
  · rw [hspec]
    simp only [List.map_map]
    have hcomp : (DockerStack.project_name ∘ fun p => (⟨p, groupMembers cs p⟩ : DockerStack)) =
        fun p => p := by
      funext p
      rfl
    rw [hcomp]
    simp
  · rw [hspec]
    intro s hs
    simp only [List.mem_map] at hs
    obtain ⟨p, _, rfl⟩ := hs
    rfl
  · rw [hspec]
  · rw [hspec]
    intro s hs c hcmem
    simp only [List.mem_map] at hs
    obtain ⟨p, _, rfl⟩ := hs
    simp only [groupMembers, List.mem_filter] at hcmem
    have : Container.compose_project c = some p := by simpa using hcmem.2
    simp [Container.is_compose_managed, this]
  · intro c1 c2 p h1 h2 hp1 hp2
    refine ⟨⟨p, groupMembers cs p⟩, ?_, ?_, ?_⟩
    · rw [hspec]
      exact List.mem_map_of_mem _ (mem_newProjects_of cs [] c1 p h1 hp1 (by simp))
    · simp [groupMembers, List.mem_filter, h1, hp1]
    · simp [groupMembers, List.mem_filter, h2, hp2]

/-- C6: calling the diagram synthesizer twice on the same `ServerInfo` list —
the second call starting from whatever identifier state the first call left
behind — produces identical output strings, because `generate` resets the
counter and the node map before rendering.  Identical strings are in
particular isomorphic as graphs (same nodes, edges and labels). -/
theorem C6_regenerate_identical (st : GenState) (servers : List ServerInfo) :
    (MermaidGenerator.generate st servers).1 =
      (MermaidGenerator.generate (MermaidGenerator.generate st servers).2 servers).1 :=
  rfl

/-- C7: when the availability probe succeeds and the inventory command
produces whitespace-only output, the host's `ServerInfo` records the empty
topology (no stacks, no standalone containers) with outcome `success` and no
error message. -/
theorem C7_empty_inventory_success (creds : ServerCredentials) (s : DockerSession)
    (parse : String → Option Container)
    (hver : s.versionResult.exitCode = 0)
    (hps : strTrim s.psResult.stdout = "") :
    InfraMapper._discover_server creds (ConnectionAttempt.connected s) parse =
      ⟨creds, [], [], "success", none⟩ := by
  unfold InfraMapper._discover_server DockerDiscoveryService.discover_containers
    DockerDiscoveryService._verify_docker_available DockerDiscoveryService._get_all_containers
  simp [hver, hps, classifyDiscovered, classifyGo]

/-- Witness for C7 at a session with whitespace-only inventory output. -/
theorem C7_empty_inventory_success_witness :
    emptyPsSession.versionResult.exitCode = 0
    ∧ strTrim emptyPsSession.psResult.stdout = ""
    ∧ InfraMapper._discover_server pwCred (ConnectionAttempt.connected emptyPsSession) parseNone =
        ⟨pwCred, [], [], "success", none⟩ :=
  ⟨rfl, rfl, C7_empty_inventory_success pwCred emptyPsSession parseNone rfl rfl⟩

/-- C8 counterexample: user-initiated cancellation (`KeyboardInterrupt`) makes
`InfraMapper.run` call `sys.exit(0)` — the exit status is 0, not a distinct
non-zero status as the claim asserts. -/
theorem C8_counterexample_cancel_exit_zero : runExitCode RunOutcome.keyboardInterrupt = 0 := rfl

/-- C8 amended: the process exit status is 0 on a completed scan (host
failures are absorbed per host, so the scan completes even when some hosts
are unreachable), 1 on a top-level `InfraMapperError` (configuration failure)
and 1 on any unexpected failure, and 0 — the same status as success, not a
distinct non-zero one — on user-initiated cancellation. -/
theorem C8_exit_codes_amended :
    runExitCode RunOutcome.completed = 0
    ∧ runExitCode RunOutcome.keyboardInterrupt = 0
    ∧ (∀ m, runExitCode (RunOutcome.appFailure m) = 1)
    ∧ (∀ m, runExitCode (RunOutcome.unexpected m) = 1) :=
  ⟨rfl, rfl, fun _ => rfl, fun _ => rfl⟩

/-- C9: opening a remote session with no authentication credential — no
(truthy) password and no key-file reference; agent delegation does not exist
in this code — fails with `SSHConnectionError` in `connect` before any
network activity, so no session is ever constructed. -/
theorem C9_no_auth_connect_error (m : SSHConnectionManager)
    (hpw : m.password = none) (hkp : m.key_path = none) :
    SSHConnectionManager.connectAuth m =
      Except.error ("No authentication method provided. Supply either key_path or password.") := by
  unfold SSHConnectionManager.connectAuth
  simp [hpw, hkp, truthyOptStr]

/-- Witness for C9 at a manager constructed with neither credential. -/
theorem C9_no_auth_connect_error_witness :
    (SSHConnectionManager.init ("h1") ("root") none 22 none).password = none
    ∧ (SSHConnectionManager.init ("h1") ("root") none 22 none).key_path = none
    ∧ SSHConnectionManager.connectAuth (SSHConnectionManager.init ("h1") ("root") none 22 none) =
        Except.error ("No authentication method provided. Supply either key_path or password.") :=
  ⟨rfl, rfl,
   C9_no_auth_connect_error (SSHConnectionManager.init ("h1") ("root") none 22 none) rfl rfl⟩

/-- C10: when the inventory command returns a non-zero exit code (after a
successful availability probe), discovery returns the empty container list
and the host's recorded outcome is `success` — and the resulting `ServerInfo`
is equal to the one produced for a reachable host whose inventory output is
empty, so the two situations are indistinguishable at the public
interface. -/
theorem C10_failed_inventory_success (creds : ServerCredentials) (s1 s2 : DockerSession)
    (parse1 parse2 : String → Option Container)
    (hver1 : s1.versionResult.exitCode = 0)
    (hps1 : s1.psResult.exitCode ≠ 0)
    (hver2 : s2.versionResult.exitCode = 0)
    (hps2 : strTrim s2.psResult.stdout = "") :
    InfraMapper._discover_server creds (ConnectionAttempt.connected s1) parse1 =
        ⟨creds, [], [], "success", none⟩
    ∧ InfraMapper._discover_server creds (ConnectionAttempt.connected s1) parse1 =
        InfraMapper._discover_server creds (ConnectionAttempt.connected s2) parse2 := by
  have h1 : InfraMapper._discover_server creds (ConnectionAttempt.connected s1) parse1 =
      ⟨creds, [], [], "success", none⟩ := by
    unfold InfraMapper._discover_server DockerDiscoveryService.discover_containers
      DockerDiscoveryService._verify_docker_available DockerDiscoveryService._get_all_containers
    simp [hver1, hps1, classifyDiscovered, classifyGo]
  have h2 : InfraMapper._discover_server creds (ConnectionAttempt.connected s2) parse2 =
      ⟨creds, [], [], "success", none⟩ := by
    unfold InfraMapper._discover_server DockerDiscoveryService.discover_containers
      DockerDiscoveryService._verify_docker_available DockerDiscoveryService._get_all_containers
    simp [hver2, hps2, classifyDiscovered, classifyGo]
  exact ⟨h1, h1.trans h2.symm⟩

/-- Witness for C10 at a session whose inventory command fails. -/
theorem C10_failed_inventory_success_witness :
    failPsSession.versionResult.exitCode = 0
    ∧ failPsSession.psResult.exitCode ≠ 0
    ∧ emptyPsSession.versionResult.exitCode = 0
    ∧ strTrim emptyPsSession.psResult.stdout = ""
    ∧ InfraMapper._discover_server pwCred (ConnectionAttempt.connected failPsSession) parseNone =
        ⟨pwCred, [], [], "success", none⟩ :=
  ⟨rfl, by decide, rfl, rfl,
   (C10_failed_inventory_success pwCred failPsSession emptyPsSession parseNone parseNone
     rfl (by decide) rfl rfl).1⟩
